import Mathlib

set_option maxRecDepth 10000

/-!
Shallow embedding of the repository-history-to-prompt pipeline of
src/main.rs (crate wtf-git), together with theorems settling the
specification claims about it.

Modelling conventions:
* `CommitData` models a loaded `git2::Commit`: hash, author name and
  message are `Option String` (git2 yields `None` for fields that are
  not valid UTF-8), the timestamp is the raw integer seconds, the
  parents are the parent commit ids in order (`parent(0)` first).
* `Repo` models the read-only repository handle: `walk` is the revwalk
  sequence of commit ids starting at head, head-first in
  reverse-chronological order (git2 default revwalk order), `none` if
  pushing head / walking fails; `lookup` models `find_commit`;
  `headTree` models the tree obtained by peeling head (`none` when head
  cannot be resolved or peeled); `diff` models
  `diff_tree_to_tree(parent.tree, commit.tree)` followed by printing
  the patch, keyed by the two commit ids.
* `World` bundles the ambient effects of `analyze_repository`: the
  contents of the `.env` file (`none` if the read fails), the result of
  `Repository::open`, and the remote chat-completion endpoint as a
  function from the composed request to a transport result carrying an
  HTTP response.
* `HttpResponse.body` records, for a given response, whether its body
  parses into the expected `OpenAIResponse` shape (`parsed`) or not
  (`malformed`, carrying the parse error text); `text` is the raw body
  text used for non-2xx diagnostics.
* `RunResult` records what one run of `analyze_repository` does: the
  endpoint calls it issued in order, whether the terminal "no commits"
  notice was printed, and either the first error encountered or the
  three labeled result sections in print order.
-/

namespace WtfGit

/-- Metadata of one loaded commit, as `get_commit_details` and the diff
loop read it from git2. -/
structure CommitData where
  id : String
  authorName : Option String
  message : Option String
  timeSeconds : Int
  parents : List String
deriving DecidableEq

/-- A tree entry's object: a blob with (lossily decoded) content, or a
non-blob object. -/
inductive Obj
  | blob (content : String)
  | nonBlob
deriving DecidableEq

/-- Read-only repository handle. `walk` is the head-first revwalk id
sequence (git2 default order), `none` when head cannot be pushed or the
walk fails. -/
structure Repo where
  walk : Option (List String)
  lookup : String → Option CommitData
  headTree : Option (List (String × Obj))
  diff : String → String → Except String String

/-- Message of the OpenAI wire protocol (`struct Message`). -/
structure Message where
  role : String
  content : String
deriving DecidableEq

/-- `struct OpenAIRequest`: model id, messages, sampling temperature.
The f32 literal 0.7 of the source is modelled as the exact rational. -/
structure OpenAIRequest where
  model : String
  messages : List Message
  temperature : ℚ
deriving DecidableEq

/-- `struct Choice`. -/
structure Choice where
  message : Message
deriving DecidableEq

/-- `struct OpenAIResponse`. -/
structure OpenAIResponse where
  choices : List Choice
deriving DecidableEq

/-- Whether a 2xx body parses into `OpenAIResponse` or fails with a
parse error. -/
inductive Body
  | parsed (data : OpenAIResponse)
  | malformed (e : String)
deriving DecidableEq

/-- An HTTP response: status code, raw body text, and its parse
behaviour. -/
structure HttpResponse where
  status : Nat
  text : String
  body : Body
deriving DecidableEq

/-- The ambient effects of one run. -/
structure World where
  envFile : Option String
  repoOpen : Option Repo
  endpoint : OpenAIRequest → Except String HttpResponse

/-- The error taxonomy of the run, mirroring the `anyhow` errors the
source constructs (each carrying its diagnostic context). -/
inductive Err
  | envReadFailed
  | credentialMissing
  | repositoryUnavailable
  | traversalError
  | commitLookupFailed (id : String)
  | diffError (e : String)
  | transportError (e : String)
  | endpointError (body : String)
  | emptyChoices
  | malformedResponse (e : String)
deriving DecidableEq

/-- Failure modes of `RepositoryExt::find_file`, in source order:
`self.head()?` / `peel_to_tree()?`, `tree.get_path(..)?` /
`to_object(..)?`, `as_blob()` returning `None`. -/
inductive FindErr
  | headUnresolvable
  | pathNotFound
  | notABlob
deriving DecidableEq

/-- Command-line arguments (the repository path is folded into
`World.repoOpen`). -/
structure Args where
  numCommits : Nat
deriving DecidableEq

/-- Decidable equality on `Except`, needed to evaluate run outcomes on
concrete inputs. -/
def exceptDecEq {ε α : Type} [DecidableEq ε] [DecidableEq α] :
    DecidableEq (Except ε α)
  | .error a, .error b =>
    if h : a = b then .isTrue (by rw [h]) else .isFalse (by simp [h])
  | .error _, .ok _ => .isFalse (by simp)
  | .ok _, .error _ => .isFalse (by simp)
  | .ok a, .ok b =>
    if h : a = b then .isTrue (by rw [h]) else .isFalse (by simp [h])

instance {ε α : Type} [DecidableEq ε] [DecidableEq α] :
    DecidableEq (Except ε α) := exceptDecEq

/-- What one run of `analyze_repository` did: endpoint calls in order,
whether the "No commits found" notice was printed, and the outcome —
first error, or the labeled result sections in print order. -/
structure RunResult where
  calls : List OpenAIRequest
  noCommitsNotice : Bool
  result : Except Err (List (String × String))
deriving DecidableEq

/-- The three canned system instructions of the source, verbatim. -/
def project_description_prompt : String :=
  "You are an AI assistant that provides concise project descriptions. Based on the README content and other information provided, give a brief, clear description of what this project is about in plain English. Keep it under 100 words."

/-- System instruction of the commit-explanation call. -/
def commit_prompt : String :=
  "You are an AI assistant that explains git commits in plain language. For each commit, explain what changes were made in simple terms that anyone can understand. Focus on the practical impact of the changes rather than technical details."

/-- System instruction of the edit-explanation call. -/
def edits_prompt : String :=
  "You are an AI assistant that explains code changes in plain language. For each edit, explain what was changed and why it might have been changed. Focus on the functional impact rather than listing every line change. Make it understandable to non-technical people."

/-- The fixed literal substituted for the edit summary when only one
commit exists. -/
def only_one_commit_notice : String :=
  "Repository has only one commit, so there are no previous versions to compare changes against."

/-- Placeholder used when `find_file("README.md")` fails. -/
def no_readme_placeholder : String := "No README.md found"

/-- The delimiter joining commit texts and diff texts. -/
def delim : String := "\n\n---\n\n"

/-- Heading of the project-description section. -/
def heading1 : String := "=== PROJECT DESCRIPTION ==="

/-- Heading of the commit-summary section; the source interpolates the
requested count `args.num_commits`, not the analyzed count. -/
def heading2 (n : Nat) : String :=
  "=== LAST " ++ toString n ++ " COMMITS IN PLAIN LANGUAGE ==="

/-- Heading of the edit-summary section. -/
def heading3 : String := "=== DETAILED ANALYSIS OF RECENT EDITS ==="

/-- The text record `get_commit_details` formats:
`"Commit: {}\nAuthor: {}\nDate: {}\nMessage: {}"` with the author name
defaulting to `"Unknown"` and the message defaulting to
`"No commit message"` when git2 yields `None` for them. -/
def commitDetailsString (c : CommitData) : String :=
  "Commit: " ++ c.id ++ "\nAuthor: " ++ c.authorName.getD "Unknown" ++
  "\nDate: " ++ toString c.timeSeconds ++
  "\nMessage: " ++ c.message.getD "No commit message"

/-- `fn get_commit_details`: returns `Ok(details)` unconditionally (its
`Result` type has no failing path). -/
def get_commit_details (c : CommitData) : Except Err String :=
  .ok (commitDetailsString c)

/-- `reqwest` `status().is_success()`: 2xx. -/
def isSuccessStatus (s : Nat) : Bool := 200 ≤ s && s < 300

/-- The f32 literal `0.7` of the source, as the exact rational 7/10
(given by its reduced numerator and denominator so that it evaluates on
concrete runs). -/
def temperature_setting : ℚ := ⟨7, 10, by decide, by decide⟩

/-- The request constructed in `get_plain_language_description`: fixed
model `"gpt-3.5-turbo"`, one system message carrying the instruction,
one user message carrying the content, temperature 0.7. -/
def compose_request (content prompt : String) : OpenAIRequest :=
  { model := "gpt-3.5-turbo"
    messages := [{ role := "system", content := prompt },
                 { role := "user", content := content }]
    temperature := temperature_setting }

/-- Response handling of `get_plain_language_description` (lines
93–114): non-2xx fails with the body text; a parsed body yields the
first choice's message content or the empty-choices error; a body that
fails to parse yields the parse error. -/
def handleResponse (resp : HttpResponse) : Except Err String :=
  if isSuccessStatus resp.status then
    match resp.body with
    | .parsed data =>
      match data.choices with
      | choice :: _ => .ok choice.message.content
      | [] => .error .emptyChoices
    | .malformed e => .error (.malformedResponse e)
  else
    .error (.endpointError resp.text)

/-- One endpoint round trip: transport failure (`send().await?`) or
response handling. -/
def sendRequest (w : World) (req : OpenAIRequest) : Except Err String :=
  match w.endpoint req with
  | .error e => .error (.transportError e)
  | .ok resp => handleResponse resp

/-- `fn get_plain_language_description`, as seen from the orchestrator:
compose the request and perform the round trip. -/
def get_plain_language_description (w : World) (content prompt : String) :
    Except Err String :=
  sendRequest w (compose_request content prompt)

/-- `RepositoryExt::find_file`: resolve head to a tree, look the path up
in it, and require a blob. -/
def find_file (repo : Repo) (path : String) : Except FindErr String :=
  match repo.headTree with
  | none => .error .headUnresolvable
  | some entries =>
    match entries.find? (fun e => e.1 == path) with
    | none => .error .pathNotFound
    | some (_, .blob content) => .ok content
    | some (_, .nonBlob) => .error .notABlob

/-- Lines 208–211: README content, degrading to the placeholder on any
`find_file` failure. -/
def readme_content (repo : Repo) : String :=
  match find_file repo "README.md" with
  | .ok content => content
  | .error _ => no_readme_placeholder

/-- The loop of lines 197–205: `repo.find_commit(oid)?` for each walked
id, failing fast on the first unresolvable id. -/
def resolveCommits (repo : Repo) : List String → Except Err (List CommitData)
  | [] => .ok []
  | oid :: rest =>
    match repo.lookup oid with
    | none => .error (.commitLookupFailed oid)
    | some c =>
      match resolveCommits repo rest with
      | .error e => .error e
      | .ok cs => .ok (c :: cs)

/-- `commit.parent(0).ok()`: the first parent, `none` when the commit is
parentless or the parent object cannot be loaded. -/
def firstParent (repo : Repo) (c : CommitData) : Option CommitData :=
  c.parents.head?.bind repo.lookup

/-- The diff loop of lines 233–250: commits whose first parent does not
resolve are skipped silently; for the others the parent-to-commit patch
is appended, and a diff failure aborts the run. -/
def extractDiffs (repo : Repo) : List CommitData → Except Err (List String)
  | [] => .ok []
  | c :: rest =>
    match firstParent repo c with
    | none => extractDiffs repo rest
    | some p =>
      match repo.diff p.id c.id with
      | .error e => .error (.diffError e)
      | .ok d =>
        match extractDiffs repo rest with
        | .error e => .error e
        | .ok ds => .ok (d :: ds)

/-- Split a character list at every occurrence of `sep` (the line
splitting of `str::lines`, which a trailing separator aside behaves
like splitting on the newline character). -/
def splitOnChar (sep : Char) : List Char → List (List Char)
  | [] => [[]]
  | c :: cs =>
    if c = sep then [] :: splitOnChar sep cs
    else
      match splitOnChar sep cs with
      | [] => [[c]]
      | l :: ls => (c :: l) :: ls

/-- Drop every leading occurrence of `pat` from `s`, with fuel
(`str::trim_start_matches`). -/
def trimStartMatchesAux (pat : List Char) : Nat → List Char → List Char
  | 0, s => s
  | fuel + 1, s =>
    if pat ≠ [] ∧ pat.isPrefixOf s then
      trimStartMatchesAux pat fuel (s.drop pat.length)
    else s

/-- `str::trim_start_matches`: repeatedly strip the pattern from the
front. -/
def trimStartMatches (s pat : String) : String :=
  ⟨trimStartMatchesAux pat.data s.data.length s.data⟩

/-- Lines 144–156: scan the `.env` lines for the first one starting with
`OPENAI_API_KEY=` and strip that prefix; result `""` when no line
matches (which line 158 then treats as the missing-credential error). -/
def extractApiKey (env : String) : String :=
  match (splitOnChar (Char.ofNat 10) env.data).find?
      (fun l => "OPENAI_API_KEY=".data.isPrefixOf l) with
  | some l => trimStartMatches ⟨l⟩ "OPENAI_API_KEY="
  | none => ""

/-- The Commit Walker of §4.1 (lines 174–205): count the reachable
commits, then collect the first `min n count` of a fresh walk. -/
def commit_walker (repo : Repo) (n : Nat) : Except Err (List CommitData) :=
  match repo.walk with
  | none => .error .traversalError
  | some wl => resolveCommits repo (wl.take (min n wl.length))

/-- The pipeline from the README lookup onward (lines 208–273), given
the resolved commit batch: three compose-and-send calls, the third one
replaced by the fixed literal when at most one commit was walked. -/
def pipeline_after_walk (a : Args) (w : World) (repo : Repo)
    (commits : List CommitData) : RunResult :=
  let req1 := compose_request (readme_content repo) project_description_prompt
  match sendRequest w req1 with
  | .error e => ⟨[req1], false, .error e⟩
  | .ok projectDescription =>
    let req2 := compose_request
      (String.intercalate delim (commits.map commitDetailsString)) commit_prompt
    match sendRequest w req2 with
    | .error e => ⟨[req1, req2], false, .error e⟩
    | .ok commitDescriptions =>
      if 1 < commits.length then
        match extractDiffs repo commits with
        | .error e => ⟨[req1, req2], false, .error e⟩
        | .ok fileChanges =>
          let req3 := compose_request
            (String.intercalate delim fileChanges) edits_prompt
          match sendRequest w req3 with
          | .error e => ⟨[req1, req2, req3], false, .error e⟩
          | .ok editsDescription =>
            ⟨[req1, req2, req3], false,
              .ok [(heading1, projectDescription),
                   (heading2 a.numCommits, commitDescriptions),
                   (heading3, editsDescription)]⟩
      else
        ⟨[req1, req2], false,
          .ok [(heading1, projectDescription),
               (heading2 a.numCommits, commitDescriptions),
               (heading3, only_one_commit_notice)]⟩

/-- `fn analyze_repository`: credential loading, repository opening,
commit walking with the empty-batch early exit, then the rest of the
pipeline. -/
def analyze_repository (a : Args) (w : World) : RunResult :=
  match w.envFile with
  | none => ⟨[], false, .error .envReadFailed⟩
  | some env =>
    if extractApiKey env = "" then ⟨[], false, .error .credentialMissing⟩
    else
      match w.repoOpen with
      | none => ⟨[], false, .error .repositoryUnavailable⟩
      | some repo =>
        match repo.walk with
        | none => ⟨[], false, .error .traversalError⟩
        | some wl =>
          if min a.numCommits wl.length = 0 then ⟨[], true, .ok []⟩
          else
            match resolveCommits repo (wl.take (min a.numCommits wl.length)) with
            | .error e => ⟨[], false, .error e⟩
            | .ok commits => pipeline_after_walk a w repo commits

/-- Process exit code of `main`: 0 on `Ok`, nonzero on `Err`. -/
def exit_code (r : RunResult) : Nat :=
  match r.result with
  | .ok _ => 0
  | .error _ => 1

/-- Substring test used to state "the record contains the placeholder". -/
def strContains (s pat : String) : Bool :=
  decide (pat.data <:+: s.data)

/-! ### Concrete fixtures used by counterexamples and witnesses -/

/-- A root commit (no parents). -/
def cRoot : CommitData :=
  { id := "r", authorName := some "A", message := some "init",
    timeSeconds := 0, parents := [] }

/-- A normal commit with one parent. -/
def cSide : CommitData :=
  { id := "s", authorName := some "A", message := some "side",
    timeSeconds := 1, parents := ["r"] }

/-- A merge commit with two parents, first parent `cSide`. -/
def cMerge : CommitData :=
  { id := "m", authorName := some "A", message := some "merge",
    timeSeconds := 2, parents := ["s", "r"] }

/-- A three-commit repository whose head is a merge commit. -/
def exRepo : Repo :=
  { walk := some ["m", "s", "r"]
    lookup := fun oid =>
      if oid = "m" then some cMerge
      else if oid = "s" then some cSide
      else if oid = "r" then some cRoot
      else none
    headTree := some [("README.md", .blob "hello")]
    diff := fun p c => .ok ("diff(" ++ p ++ "," ++ c ++ ")") }

/-- An endpoint that always answers 200 with one choice `"X"`. -/
def okEndpoint : OpenAIRequest → Except String HttpResponse :=
  fun _ => .ok { status := 200, text := ""
                 body := .parsed { choices :=
                   [{ message := { role := "assistant", content := "X" } }] } }

/-- A single-commit repository whose head cannot be resolved for the
README lookup. -/
def oneRepo : Repo :=
  { walk := some ["r"]
    lookup := fun oid => if oid = "r" then some cRoot else none
    headTree := none
    diff := fun _ _ => .error "unused" }

/-- A repository with no commits. -/
def emptyRepo : Repo :=
  { walk := some [], lookup := fun _ => none, headTree := none
    diff := fun _ _ => .error "unused" }

/-- A `.env` file holding the credential. -/
def goodEnv : String := "OPENAI_API_KEY=sk-test"

/-- World: one-commit repository, healthy endpoint. -/
def oneWorld : World :=
  { envFile := some goodEnv, repoOpen := some oneRepo, endpoint := okEndpoint }

/-- World: three-commit repository, healthy endpoint. -/
def exWorld : World :=
  { envFile := some goodEnv, repoOpen := some exRepo, endpoint := okEndpoint }

/-- World: empty repository, healthy endpoint. -/
def emptyWorld : World :=
  { envFile := some goodEnv, repoOpen := some emptyRepo, endpoint := okEndpoint }

/-- World: three-commit repository, endpoint always answering 500 with
body `"boom"`. -/
def failWorld : World :=
  { envFile := some goodEnv, repoOpen := some exRepo
    endpoint := fun _ => .ok { status := 500, text := "boom", body := .malformed "x" } }

/-- The default requested count. -/
def argsFive : Args := { numCommits := 5 }

/-- What the diff loop contributes for a single commit: nothing when the
first parent does not resolve, otherwise the successful patch text. -/
def diffEntry (repo : Repo) (c : CommitData) : Option String :=
  match firstParent repo c with
  | none => none
  | some p => (repo.diff p.id c.id).toOption

/-! ### Helper lemmas -/

/-- `resolveCommits` preserves the batch length. -/
lemma resolveCommits_length (repo : Repo) :
    ∀ (l : List String) (cs : List CommitData),
      resolveCommits repo l = .ok cs → cs.length = l.length
  | [], cs, h => by
    simp only [resolveCommits] at h
    cases h
    rfl
  | oid :: rest, cs, h => by
    simp only [resolveCommits] at h
    cases hl : repo.lookup oid with
    | none => rw [hl] at h; cases h
    | some c =>
      rw [hl] at h
      cases hr : resolveCommits repo rest with
      | error e => rw [hr] at h; cases h
      | ok cs' =>
        rw [hr] at h
        cases h
        simp [resolveCommits_length repo rest cs' hr]

/-- When every lookup returns the commit actually stored under the id,
`resolveCommits` returns the commits of exactly the requested ids, in
order. -/
lemma resolveCommits_ids (repo : Repo)
    (hid : ∀ oid c, repo.lookup oid = some c → c.id = oid) :
    ∀ (l : List String) (cs : List CommitData),
      resolveCommits repo l = .ok cs → cs.map CommitData.id = l
  | [], cs, h => by
    simp only [resolveCommits] at h
    cases h
    rfl
  | oid :: rest, cs, h => by
    simp only [resolveCommits] at h
    cases hl : repo.lookup oid with
    | none => rw [hl] at h; cases h
    | some c =>
      rw [hl] at h
      cases hr : resolveCommits repo rest with
      | error e => rw [hr] at h; cases h
      | ok cs' =>
        rw [hr] at h
        cases h
        simp [hid oid c hl, resolveCommits_ids repo hid rest cs' hr]

/-- A successful `extractDiffs` produces one entry per commit with a
resolvable first parent (and is the in-order list of those patches). -/
lemma extractDiffs_ok (repo : Repo) :
    ∀ (cs : List CommitData) (ds : List String),
      extractDiffs repo cs = .ok ds →
      ds.length = cs.countP (fun c => (firstParent repo c).isSome) ∧
      ds = cs.filterMap (diffEntry repo)
  | [], ds, h => by
    simp only [extractDiffs] at h
    cases h
    simp
  | c :: rest, ds, h => by
    simp only [extractDiffs] at h
    cases hp : firstParent repo c with
    | none =>
      rw [hp] at h
      have ih := extractDiffs_ok repo rest ds h
      have hde : diffEntry repo c = none := by simp [diffEntry, hp]
      simp [List.countP_cons, hp, ih.1, List.filterMap_cons, hde, ← ih.2]
    | some p =>
      rw [hp] at h
      dsimp only at h
      cases hd : repo.diff p.id c.id with
      | error e => rw [hd] at h; cases h
      | ok d =>
        rw [hd] at h
        cases hr : extractDiffs repo rest with
        | error e => rw [hr] at h; cases h
        | ok ds' =>
          rw [hr] at h
          cases h
          have ih := extractDiffs_ok repo rest ds' hr
          have hde : diffEntry repo c = some d := by
            simp [diffEntry, hp, hd, Except.toOption]
          simp [List.countP_cons, hp, ih.1, List.filterMap_cons, hde, ← ih.2]

/-- `strContains` unfolded to list infixes. -/
lemma strContains_true_iff (s pat : String) :
    strContains s pat = true ↔ pat.data <:+: s.data := by
  simp [strContains]

/-- A string whose character data splits as `l ++ pat ++ r` contains
`pat`. -/
lemma strContains_of_parts (s pat : String) (l r : List Char)
    (h : s.data = l ++ pat.data ++ r) : strContains s pat = true := by
  rw [strContains_true_iff]
  exact ⟨l, r, h.symm⟩

/-- Reduction of `analyze_repository` to the post-walk pipeline under
the hypotheses that credential loading, repository opening, the walk and
commit resolution all succeed with a nonempty batch. -/
lemma analyze_eq_pipeline (a : Args) (w : World) (env : String) (repo : Repo)
    (wl : List String) (cs : List CommitData)
    (henv : w.envFile = some env) (hkey : ¬ extractApiKey env = "")
    (hrepo : w.repoOpen = some repo) (hwalk : repo.walk = some wl)
    (hn : ¬ min a.numCommits wl.length = 0)
    (hres : resolveCommits repo (wl.take (min a.numCommits wl.length)) = .ok cs) :
    analyze_repository a w = pipeline_after_walk a w repo cs := by
  simp [analyze_repository, henv, hrepo, hwalk, hkey, hn, hres]

/-- The fixture repository looks commits up by their own ids. -/
lemma exRepo_lookup_id : ∀ oid c, exRepo.lookup oid = some c → c.id = oid := by
  intro oid c h
  simp only [exRepo] at h
  split_ifs at h with h1 h2 h3
  · cases h; simp [cMerge, h1]
  · cases h; simp [cSide, h2]
  · cases h; simp [cRoot, h3]

/-! ### Claims -/

/-- C1 (counterexample): the claim says a merge commit contributes zero
entries to DiffBatch, so on a batch holding one merge commit, one
single-parent commit and one root commit it predicts exactly one entry.
The code resolves `parent(0)` of the merge commit and records a patch
for it, producing two entries — the first of them computed from the
merge commit against its first parent. -/
theorem C1_counterexample :
    extractDiffs exRepo [cMerge, cSide, cRoot] =
      .ok ["diff(s,m)", "diff(r,s)"] ∧
    ([cMerge, cSide, cRoot].countP (fun c => c.parents.length == 1) = 1) ∧
    (["diff(s,m)", "diff(r,s)"] : List String).length ≠ 1 := by
  refine ⟨by decide, by decide, by decide⟩

/-- C1 (amended): for every commit in the batch whose first parent
resolves — merge commits included, diffed against their first parent —
DiffBatch contains exactly one entry, and for commits without a
resolvable parent (root commits) it contains zero entries; the batch is
exactly the in-order list of those patches. -/
theorem C1_diff_batch (repo : Repo) (cs : List CommitData) (ds : List String)
    (h : extractDiffs repo cs = .ok ds) :
    ds.length = cs.countP (fun c => (firstParent repo c).isSome) ∧
    ds = cs.filterMap (diffEntry repo) :=
  extractDiffs_ok repo cs ds h

/-- C1 witness: the amended statement evaluated on the mixed
merge/normal/root batch of the fixture repository. -/
theorem C1_diff_batch_witness :
    (["diff(s,m)", "diff(r,s)"] : List String).length =
      [cMerge, cSide, cRoot].countP (fun c => (firstParent exRepo c).isSome) ∧
    ["diff(s,m)", "diff(r,s)"] =
      [cMerge, cSide, cRoot].filterMap (diffEntry exRepo) :=
  C1_diff_batch exRepo [cMerge, cSide, cRoot] ["diff(s,m)", "diff(r,s)"]
    (by decide)

/-- C2: for every requested count and repository whose reachable history
is the walked id list, a successful Commit Walker run yields exactly
`min n C` records, within both bounds, and the records are the walked
ids in order (head-first). -/
theorem C2_commit_walker (repo : Repo) (n : Nat) (wl : List String)
    (cs : List CommitData)
    (hid : ∀ oid c, repo.lookup oid = some c → c.id = oid)
    (hwalk : repo.walk = some wl)
    (h : commit_walker repo n = .ok cs) :
    cs.length = min n wl.length ∧ cs.length ≤ n ∧ cs.length ≤ wl.length ∧
    cs.map CommitData.id = wl.take (min n wl.length) := by
  have h' : resolveCommits repo (wl.take (min n wl.length)) = .ok cs := by
    simpa [commit_walker, hwalk] using h
  have hlen := resolveCommits_length repo _ cs h'
  have hids := resolveCommits_ids repo hid _ cs h'
  have htk : (wl.take (min n wl.length)).length = min n wl.length := by
    simp only [List.length_take]
    omega
  refine ⟨by omega, by omega, by omega, hids⟩

/-- C2 witness: requesting 2 commits from the 3-commit fixture yields
the first two walked commits. -/
theorem C2_commit_walker_witness :
    ([cMerge, cSide] : List CommitData).length =
      min 2 (["m", "s", "r"] : List String).length ∧
    ([cMerge, cSide] : List CommitData).length ≤ 2 ∧
    ([cMerge, cSide] : List CommitData).length ≤
      (["m", "s", "r"] : List String).length ∧
    [cMerge, cSide].map CommitData.id =
      (["m", "s", "r"] : List String).take
        (min 2 (["m", "s", "r"] : List String).length) :=
  C2_commit_walker exRepo 2 ["m", "s", "r"] [cMerge, cSide]
    exRepo_lookup_id rfl (by decide)

/-- C4 (counterexample): for a commit whose message is present but
empty, the formatter renders the empty message verbatim — the output
does not contain the `"No commit message"` placeholder, contradicting
the claim that the placeholder appears whenever the message is empty. -/
theorem C4_counterexample :
    get_commit_details
      { id := "c1", authorName := some "Alice", message := some "",
        timeSeconds := 5, parents := [] } =
      .ok "Commit: c1\nAuthor: Alice\nDate: 5\nMessage: " ∧
    strContains "Commit: c1\nAuthor: Alice\nDate: 5\nMessage: "
      "No commit message" = false := by
  refine ⟨by decide, by decide⟩

/-- C4 (amended): the Commit Formatter is total — it returns a record
for every commit, containing the `"Unknown"` placeholder when the author
name is absent, the `"No commit message"` placeholder when the message
is absent (git2 yields an absent message for non-UTF-8 bytes; a present
but empty message is rendered verbatim, without the placeholder), and
the timestamp as raw integer seconds. -/
theorem C4_formatter_total (c : CommitData) :
    ∃ s, get_commit_details c = .ok s ∧
      (c.authorName = none → strContains s "Unknown" = true) ∧
      (c.message = none → strContains s "No commit message" = true) ∧
      strContains s (toString c.timeSeconds) = true := by
  refine ⟨commitDetailsString c, rfl, ?_, ?_, ?_⟩
  · intro ha
    apply strContains_of_parts _ _
      ("Commit: ".data ++ c.id.data ++ "\nAuthor: ".data)
      ("\nDate: ".data ++ (toString c.timeSeconds).data ++
        "\nMessage: ".data ++ (c.message.getD "No commit message").data)
    simp [commitDetailsString, ha, String.data_append]
  · intro hm
    apply strContains_of_parts _ _
      ("Commit: ".data ++ c.id.data ++ "\nAuthor: ".data ++
        (c.authorName.getD "Unknown").data ++ "\nDate: ".data ++
        (toString c.timeSeconds).data ++ "\nMessage: ".data)
      []
    simp [commitDetailsString, hm, String.data_append]
  · apply strContains_of_parts _ _
      ("Commit: ".data ++ c.id.data ++ "\nAuthor: ".data ++
        (c.authorName.getD "Unknown").data ++ "\nDate: ".data)
      ("\nMessage: ".data ++ (c.message.getD "No commit message").data)
    simp [commitDetailsString, String.data_append]

/-- C4 witness: the amended statement evaluated on a commit with absent
author name and absent message. -/
theorem C4_formatter_total_witness :
    ∃ s, get_commit_details
        { id := "h1", authorName := none, message := none,
          timeSeconds := 42, parents := [] } = .ok s ∧
      (strContains s "Unknown" = true) ∧
      (strContains s "No commit message" = true) ∧
      strContains s (toString (42 : Int)) = true := by
  obtain ⟨s, hs, h1, h2, h3⟩ := C4_formatter_total
    { id := "h1", authorName := none, message := none,
      timeSeconds := 42, parents := [] }
  exact ⟨s, hs, h1 rfl, h2 rfl, h3⟩

/-- C5: the Summary Client's four-way contract — non-2xx fails with the
body text verbatim; 2xx with a parsed body and at least one choice
returns exactly the first choice's message content; 2xx with a parsed
body and zero choices fails with the empty-choices error; 2xx with an
unparseable body fails with the parse error. -/
theorem C5_summary_client (resp : HttpResponse) :
    (isSuccessStatus resp.status = false →
      handleResponse resp = .error (.endpointError resp.text)) ∧
    (∀ data choice rest, isSuccessStatus resp.status = true →
      resp.body = .parsed data → data.choices = choice :: rest →
      handleResponse resp = .ok choice.message.content) ∧
    (∀ data, isSuccessStatus resp.status = true →
      resp.body = .parsed data → data.choices = [] →
      handleResponse resp = .error .emptyChoices) ∧
    (∀ e, isSuccessStatus resp.status = true →
      resp.body = .malformed e →
      handleResponse resp = .error (.malformedResponse e)) := by
  refine ⟨?_, ?_, ?_, ?_⟩
  · intro hs
    simp [handleResponse, hs]
  · intro data choice rest hs hb hc
    simp [handleResponse, hs, hb, hc]
  · intro data hs hb hc
    simp [handleResponse, hs, hb, hc]
  · intro e hs hb
    simp [handleResponse, hs, hb]

/-- C5 witness: the contract evaluated on the three mock responses of
the spec's round-trip property. -/
theorem C5_summary_client_witness :
    handleResponse { status := 200, text := "raw"
                     body := .parsed { choices :=
                       [{ message := { role := "assistant", content := "X" } }] } } =
      .ok "X" ∧
    handleResponse { status := 200, text := "raw"
                     body := .parsed { choices := [] } } =
      .error .emptyChoices ∧
    handleResponse { status := 401, text := "Unauthorized body"
                     body := .malformed "parse error" } =
      .error (.endpointError "Unauthorized body") := by
  refine ⟨?_, ?_, ?_⟩
  · exact (C5_summary_client _).2.1
      { choices := [{ message := { role := "assistant", content := "X" } }] }
      { message := { role := "assistant", content := "X" } } []
      (by decide) rfl rfl
  · exact (C5_summary_client _).2.2.1 { choices := [] } (by decide) rfl rfl
  · exact (C5_summary_client _).1 (by decide)

/-- Whatever the endpoint outcomes, the post-walk pipeline's first call
is the project-description request over the README content. -/
lemma pipeline_calls_head (a : Args) (w : World) (repo : Repo)
    (cs : List CommitData) :
    (pipeline_after_walk a w repo cs).calls.head? =
      some (compose_request (readme_content repo)
        project_description_prompt) := by
  simp only [pipeline_after_walk]
  repeat' split
  all_goals rfl

/-- C3: for a repository with zero commits, the Commit Walker returns an
empty batch without error, and the orchestrator prints the terminal
"no commits" notice, performs zero endpoint calls, and exits
successfully. -/
theorem C3_empty_repository (a : Args) (w : World) (env : String)
    (repo : Repo)
    (henv : w.envFile = some env) (hkey : ¬ extractApiKey env = "")
    (hrepo : w.repoOpen = some repo) (hwalk : repo.walk = some []) :
    commit_walker repo a.numCommits = .ok [] ∧
    analyze_repository a w =
      { calls := [], noCommitsNotice := true, result := .ok [] } ∧
    exit_code (analyze_repository a w) = 0 := by
  have h2 : analyze_repository a w = ⟨[], true, .ok []⟩ := by
    simp [analyze_repository, henv, hrepo, hwalk, hkey]
  refine ⟨by simp [commit_walker, hwalk, resolveCommits], h2, ?_⟩
  rw [h2]
  rfl

/-- C3 witness: the empty-repository world. -/
theorem C3_empty_repository_witness :
    commit_walker emptyRepo argsFive.numCommits = .ok [] ∧
    analyze_repository argsFive emptyWorld =
      { calls := [], noCommitsNotice := true, result := .ok [] } ∧
    exit_code (analyze_repository argsFive emptyWorld) = 0 :=
  C3_empty_repository argsFive emptyWorld goodEnv emptyRepo rfl (by decide)
    rfl rfl

/-- C10: requesting zero commits short-circuits exactly like an empty
repository — the "no commits" notice is printed and the run exits
successfully with zero endpoint calls, even when commits exist. -/
theorem C10_zero_requested (w : World) (env : String) (repo : Repo)
    (wl : List String)
    (henv : w.envFile = some env) (hkey : ¬ extractApiKey env = "")
    (hrepo : w.repoOpen = some repo) (hwalk : repo.walk = some wl) :
    analyze_repository { numCommits := 0 } w =
      { calls := [], noCommitsNotice := true, result := .ok [] } ∧
    exit_code (analyze_repository { numCommits := 0 } w) = 0 := by
  have h2 : analyze_repository ⟨0⟩ w = ⟨[], true, .ok []⟩ := by
    simp [analyze_repository, henv, hrepo, hwalk, hkey]
  refine ⟨h2, ?_⟩
  rw [h2]
  rfl

/-- C10 witness: zero requested commits on the three-commit fixture. -/
theorem C10_zero_requested_witness :
    analyze_repository { numCommits := 0 } exWorld =
      { calls := [], noCommitsNotice := true, result := .ok [] } ∧
    exit_code (analyze_repository { numCommits := 0 } exWorld) = 0 :=
  C10_zero_requested exWorld goodEnv exRepo ["m", "s", "r"] rfl (by decide)
    rfl rfl

/-- C9: every failure of the README lookup — unresolvable head, path
missing from the head tree, or a non-blob object — degrades to the
placeholder text, and the run continues: its first endpoint call is the
project-description request over the placeholder. -/
theorem C9_readme_nonfatal (a : Args) (w : World) (env : String)
    (repo : Repo) (wl : List String) (cs : List CommitData) (err : FindErr)
    (henv : w.envFile = some env) (hkey : ¬ extractApiKey env = "")
    (hrepo : w.repoOpen = some repo) (hwalk : repo.walk = some wl)
    (hn : ¬ min a.numCommits wl.length = 0)
    (hres : resolveCommits repo (wl.take (min a.numCommits wl.length)) = .ok cs)
    (hff : find_file repo "README.md" = .error err) :
    readme_content repo = no_readme_placeholder ∧
    (analyze_repository a w).calls.head? =
      some (compose_request no_readme_placeholder
        project_description_prompt) := by
  have hrc : readme_content repo = no_readme_placeholder := by
    simp [readme_content, hff]
  refine ⟨hrc, ?_⟩
  rw [analyze_eq_pipeline a w env repo wl cs henv hkey hrepo hwalk hn hres,
    pipeline_calls_head, hrc]

/-- C9 witness: the single-commit fixture repository, whose head cannot
be resolved for the README lookup. -/
theorem C9_readme_nonfatal_witness :
    readme_content oneRepo = no_readme_placeholder ∧
    (analyze_repository argsFive oneWorld).calls.head? =
      some (compose_request no_readme_placeholder
        project_description_prompt) :=
  C9_readme_nonfatal argsFive oneWorld goodEnv oneRepo ["r"] [cRoot]
    .headUnresolvable rfl (by decide) rfl rfl (by decide) (by decide) rfl

/-- When at most one commit was walked, the post-walk pipeline makes at
most two calls and a successful run ends with the fixed one-commit
notice as its edit summary. -/
lemma pipeline_single (a : Args) (w : World) (repo : Repo)
    (cs : List CommitData) (hlen : ¬ 1 < cs.length) :
    (pipeline_after_walk a w repo cs).calls.length ≤ 2 ∧
    ∀ secs, (pipeline_after_walk a w repo cs).result = .ok secs →
      secs.getLast? = some (heading3, only_one_commit_notice) := by
  simp only [pipeline_after_walk, if_neg hlen]
  cases sendRequest w
      (compose_request (readme_content repo) project_description_prompt) with
  | error e => exact ⟨by simp, fun secs h => by cases h⟩
  | ok pd =>
    dsimp only
    cases sendRequest w
        (compose_request
          (String.intercalate delim (cs.map commitDetailsString))
          commit_prompt) with
    | error e => exact ⟨by simp, fun secs h => by cases h⟩
    | ok cd =>
      dsimp only
      refine ⟨by simp, fun secs h => ?_⟩
      cases h
      rfl

/-- When more than one commit was walked, a successful run made exactly
three calls, the diff batch extraction succeeded, and the third call is
the edit-explanation request over the joined diffs. -/
lemma pipeline_multi (a : Args) (w : World) (repo : Repo)
    (cs : List CommitData) (hlen : 1 < cs.length) :
    ∀ secs, (pipeline_after_walk a w repo cs).result = .ok secs →
      (pipeline_after_walk a w repo cs).calls.length = 3 ∧
      ∃ ds, extractDiffs repo cs = .ok ds ∧
        (pipeline_after_walk a w repo cs).calls.getLast? =
          some (compose_request (String.intercalate delim ds) edits_prompt) := by
  simp only [pipeline_after_walk, if_pos hlen]
  cases sendRequest w
      (compose_request (readme_content repo) project_description_prompt) with
  | error e => exact fun secs h => by cases h
  | ok pd =>
    dsimp only
    cases sendRequest w
        (compose_request
          (String.intercalate delim (cs.map commitDetailsString))
          commit_prompt) with
    | error e => exact fun secs h => by cases h
    | ok cd =>
      dsimp only
      cases hds : extractDiffs repo cs with
      | error e => exact fun secs h => by cases h
      | ok ds =>
        dsimp only
        cases sendRequest w
            (compose_request (String.intercalate delim ds) edits_prompt) with
        | error e => exact fun secs h => by cases h
        | ok ed =>
          dsimp only
          exact fun secs h => ⟨rfl, ds, rfl, rfl⟩

/-- C6: in a run whose walked batch has exactly one commit, no third
endpoint call happens (at most the two other calls are made) and a
successful run's edit summary is the fixed literal notice; in a run
whose batch has more than one commit, success implies diffs were
extracted and a third call was made, over the joined diff texts. -/
theorem C6_edit_summary (a : Args) (w : World) (env : String) (repo : Repo)
    (wl : List String) (cs : List CommitData)
    (henv : w.envFile = some env) (hkey : ¬ extractApiKey env = "")
    (hrepo : w.repoOpen = some repo) (hwalk : repo.walk = some wl)
    (hn : ¬ min a.numCommits wl.length = 0)
    (hres : resolveCommits repo (wl.take (min a.numCommits wl.length)) = .ok cs) :
    (cs.length = 1 →
      (analyze_repository a w).calls.length ≤ 2 ∧
      ∀ secs, (analyze_repository a w).result = .ok secs →
        secs.getLast? = some (heading3, only_one_commit_notice)) ∧
    (1 < cs.length →
      ∀ secs, (analyze_repository a w).result = .ok secs →
        (analyze_repository a w).calls.length = 3 ∧
        ∃ ds, extractDiffs repo cs = .ok ds ∧
          (analyze_repository a w).calls.getLast? =
            some (compose_request (String.intercalate delim ds)
              edits_prompt)) := by
  rw [analyze_eq_pipeline a w env repo wl cs henv hkey hrepo hwalk hn hres]
  constructor
  · intro h1
    exact pipeline_single a w repo cs (by omega)
  · intro h1
    exact pipeline_multi a w repo cs h1

/-- C6 witness: the one-commit fixture run makes two calls; the
three-commit fixture run makes three. -/
theorem C6_edit_summary_witness :
    (analyze_repository argsFive oneWorld).calls.length ≤ 2 ∧
    (analyze_repository argsFive exWorld).calls.length = 3 := by
  constructor
  · exact ((C6_edit_summary argsFive oneWorld goodEnv oneRepo ["r"] [cRoot]
      rfl (by decide) rfl rfl (by decide) (by decide)).1 rfl).1
  · exact ((C6_edit_summary argsFive exWorld goodEnv exRepo ["m", "s", "r"]
      [cMerge, cSide, cRoot] rfl (by decide) rfl rfl (by decide)
      (by decide)).2 (by decide)
      [(heading1, "X"), (heading2 5, "X"), (heading3, "X")] (by decide)).1

/-- C7: every composed request has the fixed model id, temperature 0.7,
and exactly one system message (the instruction) followed by one user
message (the content); and every request a run issues is one of the
three composed ones — over the README text, over the commit texts
joined with the fixed delimiter, or over the diff texts joined with the
same delimiter. -/
theorem C7_prompt_composer (a : Args) (w : World) (env : String)
    (repo : Repo) (wl : List String) (cs : List CommitData)
    (henv : w.envFile = some env) (hkey : ¬ extractApiKey env = "")
    (hrepo : w.repoOpen = some repo) (hwalk : repo.walk = some wl)
    (hn : ¬ min a.numCommits wl.length = 0)
    (hres : resolveCommits repo (wl.take (min a.numCommits wl.length)) = .ok cs) :
    (∀ content prompt,
      (compose_request content prompt).model = "gpt-3.5-turbo" ∧
      (compose_request content prompt).temperature = 7/10 ∧
      (compose_request content prompt).messages =
        [{ role := "system", content := prompt },
         { role := "user", content := content }]) ∧
    (∀ req, req ∈ (analyze_repository a w).calls →
      req = compose_request (readme_content repo)
              project_description_prompt ∨
      req = compose_request
              (String.intercalate delim (cs.map commitDetailsString))
              commit_prompt ∨
      ∃ ds, extractDiffs repo cs = .ok ds ∧
        req = compose_request (String.intercalate delim ds) edits_prompt) := by
  refine ⟨?_, ?_⟩
  · intro content prompt
    refine ⟨rfl, ?_, rfl⟩
    show temperature_setting = 7/10
    rw [temperature_setting, Rat.mk'_eq_divInt, Rat.divInt_eq_div]
    norm_num
  · intro req hreq
    rw [analyze_eq_pipeline a w env repo wl cs henv hkey hrepo hwalk hn hres]
      at hreq
    revert hreq
    simp only [pipeline_after_walk]
    by_cases hc : 1 < cs.length
    · simp only [if_pos hc]
      cases sendRequest w
          (compose_request (readme_content repo)
            project_description_prompt) with
      | error e =>
        intro hreq
        simp only [List.mem_singleton] at hreq
        exact .inl hreq
      | ok pd =>
        dsimp only
        cases sendRequest w
            (compose_request
              (String.intercalate delim (cs.map commitDetailsString))
              commit_prompt) with
        | error e =>
          intro hreq
          simp only [List.mem_cons, List.mem_singleton,
            List.not_mem_nil, or_false] at hreq
          exact hreq.imp id .inl
        | ok cd =>
          dsimp only
          cases hds : extractDiffs repo cs with
          | error e =>
            intro hreq
            simp only [List.mem_cons, List.mem_singleton,
              List.not_mem_nil, or_false] at hreq
            exact hreq.imp id .inl
          | ok ds =>
            dsimp only
            cases sendRequest w
                (compose_request (String.intercalate delim ds)
                  edits_prompt) with
            | error e =>
              intro hreq
              simp only [List.mem_cons, List.not_mem_nil, or_false] at hreq
              rcases hreq with h | h | h
              · exact .inl h
              · exact .inr (.inl h)
              · exact .inr (.inr ⟨ds, rfl, h⟩)
            | ok ed =>
              dsimp only
              intro hreq
              simp only [List.mem_cons, List.not_mem_nil, or_false] at hreq
              rcases hreq with h | h | h
              · exact .inl h
              · exact .inr (.inl h)
              · exact .inr (.inr ⟨ds, rfl, h⟩)
    · simp only [if_neg hc]
      cases sendRequest w
          (compose_request (readme_content repo)
            project_description_prompt) with
      | error e =>
        intro hreq
        simp only [List.mem_singleton] at hreq
        exact .inl hreq
      | ok pd =>
        dsimp only
        cases sendRequest w
            (compose_request
              (String.intercalate delim (cs.map commitDetailsString))
              commit_prompt) with
        | error e =>
          intro hreq
          simp only [List.mem_cons, List.mem_singleton,
            List.not_mem_nil, or_false] at hreq
          exact hreq.imp id .inl
        | ok cd =>
          dsimp only
          intro hreq
          simp only [List.mem_cons, List.mem_singleton,
            List.not_mem_nil, or_false] at hreq
          exact hreq.imp id .inl

/-- C7 witness: the composer shape on a sample instruction/content pair,
and every call of the one-commit fixture run is one of the composed
requests (instantiated at its first call). -/
theorem C7_prompt_composer_witness :
    ((compose_request "x" "y").model = "gpt-3.5-turbo" ∧
      (compose_request "x" "y").temperature = 7/10 ∧
      (compose_request "x" "y").messages =
        [{ role := "system", content := "y" },
         { role := "user", content := "x" }]) ∧
    (compose_request (readme_content oneRepo) project_description_prompt =
        compose_request (readme_content oneRepo)
          project_description_prompt ∨
      compose_request (readme_content oneRepo) project_description_prompt =
        compose_request
          (String.intercalate delim ([cRoot].map commitDetailsString))
          commit_prompt ∨
      ∃ ds, extractDiffs oneRepo [cRoot] = .ok ds ∧
        compose_request (readme_content oneRepo)
            project_description_prompt =
          compose_request (String.intercalate delim ds) edits_prompt) := by
  have h := C7_prompt_composer argsFive oneWorld goodEnv oneRepo ["r"]
    [cRoot] rfl (by decide) rfl rfl (by decide) (by decide)
  exact ⟨h.1 "x" "y", h.2 _ (by decide)⟩

/-- C8: failures are fatal and atomic — if the first, second, or third
endpoint call (or the diff extraction before the third) fails, the run
stops there, surfaces exactly that error, issues no further calls and
produces no result sections; a successful run's output is exactly the
three labeled sections in the fixed order project description, commit
summary, edit summary. -/
theorem C8_fail_fast (a : Args) (w : World) (env : String) (repo : Repo)
    (wl : List String) (cs : List CommitData)
    (henv : w.envFile = some env) (hkey : ¬ extractApiKey env = "")
    (hrepo : w.repoOpen = some repo) (hwalk : repo.walk = some wl)
    (hn : ¬ min a.numCommits wl.length = 0)
    (hres : resolveCommits repo (wl.take (min a.numCommits wl.length)) = .ok cs) :
    (∀ e, sendRequest w (compose_request (readme_content repo)
        project_description_prompt) = .error e →
      analyze_repository a w =
        { calls := [compose_request (readme_content repo)
            project_description_prompt]
          noCommitsNotice := false
          result := .error e }) ∧
    (∀ pd e, sendRequest w (compose_request (readme_content repo)
        project_description_prompt) = .ok pd →
      sendRequest w (compose_request
        (String.intercalate delim (cs.map commitDetailsString))
        commit_prompt) = .error e →
      analyze_repository a w =
        { calls := [compose_request (readme_content repo)
             project_description_prompt,
           compose_request
             (String.intercalate delim (cs.map commitDetailsString))
             commit_prompt]
          noCommitsNotice := false
          result := .error e }) ∧
    (∀ pd cd e, sendRequest w (compose_request (readme_content repo)
        project_description_prompt) = .ok pd →
      sendRequest w (compose_request
        (String.intercalate delim (cs.map commitDetailsString))
        commit_prompt) = .ok cd →
      1 < cs.length → extractDiffs repo cs = .error e →
      analyze_repository a w =
        { calls := [compose_request (readme_content repo)
             project_description_prompt,
           compose_request
             (String.intercalate delim (cs.map commitDetailsString))
             commit_prompt]
          noCommitsNotice := false
          result := .error e }) ∧
    (∀ secs, (analyze_repository a w).result = .ok secs →
      ∃ pd cd ed, secs = [(heading1, pd), (heading2 a.numCommits, cd),
        (heading3, ed)]) := by
  rw [analyze_eq_pipeline a w env repo wl cs henv hkey hrepo hwalk hn hres]
  refine ⟨?_, ?_, ?_, ?_⟩
  · intro e he
    simp only [pipeline_after_walk, he]
  · intro pd e h1 h2
    simp only [pipeline_after_walk, h1, h2]
  · intro pd cd e h1 h2 hc hd
    simp only [pipeline_after_walk, h1, h2, if_pos hc, hd]
  · simp only [pipeline_after_walk]
    by_cases hc : 1 < cs.length
    · simp only [if_pos hc]
      cases sendRequest w
          (compose_request (readme_content repo)
            project_description_prompt) with
      | error e => exact fun secs h => by cases h
      | ok pd =>
        dsimp only
        cases sendRequest w
            (compose_request
              (String.intercalate delim (cs.map commitDetailsString))
              commit_prompt) with
        | error e => exact fun secs h => by cases h
        | ok cd =>
          dsimp only
          cases extractDiffs repo cs with
          | error e => exact fun secs h => by cases h
          | ok ds =>
            dsimp only
            cases sendRequest w
                (compose_request (String.intercalate delim ds)
                  edits_prompt) with
            | error e => exact fun secs h => by cases h
            | ok ed =>
              dsimp only
              intro secs h
              cases h
              exact ⟨pd, cd, ed, rfl⟩
    · simp only [if_neg hc]
      cases sendRequest w
          (compose_request (readme_content repo)
            project_description_prompt) with
      | error e => exact fun secs h => by cases h
      | ok pd =>
        dsimp only
        cases sendRequest w
            (compose_request
              (String.intercalate delim (cs.map commitDetailsString))
              commit_prompt) with
        | error e => exact fun secs h => by cases h
        | ok cd =>
          dsimp only
          intro secs h
          cases h
          exact ⟨pd, cd, only_one_commit_notice, rfl⟩

/-- C8 witness: on the fixture world whose endpoint always answers 500
with body "boom", the run aborts after the first call, surfacing the
endpoint error with the body, with no sections. -/
theorem C8_fail_fast_witness :
    analyze_repository argsFive failWorld =
      { calls := [compose_request (readme_content exRepo)
          project_description_prompt]
        noCommitsNotice := false
        result := .error (.endpointError "boom") } :=
  (C8_fail_fast argsFive failWorld goodEnv exRepo ["m", "s", "r"]
    [cMerge, cSide, cRoot] rfl (by decide) rfl rfl (by decide)
    (by decide)).1 (.endpointError "boom") (by decide)

end WtfGit
